import Mathlib

/-!
Verification development for the audio harvesting/playback pipeline of the
`tappr` repository (`src/audio/*.rs`, `src/playback/source.rs`, `src/app.rs`).

Modelling conventions (shallow embedding of the Rust sources):
* `f32` arithmetic is idealised as exact arithmetic: sample data and tempo
  values live in `ℚ`; values produced by transcendental functions
  (`sqrt`, `sin`, `cos`, `ln`) live in `ℝ` via `Real.sqrt`, `Real.sin`,
  `Real.cos`, `Real.log`.
* Rust's `as usize` cast on a finite `f32` truncates toward zero and
  saturates at 0 for negative values; on `ℚ` this is `q.floor.toNat`
  (for `q ≥ 0` the floor is the truncation, for `q < 0` both yield 0).
* The external `ssstretch` time-stretch library only fixes the length of its
  output (the Rust code pre-allocates the output vectors); the sample values
  it writes are unspecified.  It is modelled by a parameter `StretchLib`
  supplying the output samples, so every theorem quantifies over all
  possible library behaviours.
* Rust `slice::chunks` is embedded fuel-structurally; the sources only call
  it with a positive chunk size (a zero size panics in Rust), which the
  theorems reflect through hypotheses such as `40 ≤ raw.sample_rate` and
  `0 < raw.channels`.
-/

open scoped Classical

/-- Rust `slice::chunks n` (fuel-based so that it reduces definitionally).
The sources only use a positive `n`; then the fuel `xs.length` suffices. -/
def chunksAux {α : Type} (fuel : ℕ) (n : ℕ) (xs : List α) : List (List α) :=
  match fuel, xs with
  | 0, _ => []
  | _, [] => []
  | fuel + 1, x :: rest => (x :: rest).take n :: chunksAux fuel n ((x :: rest).drop n)

/-- Rust `slice::chunks n`: split into consecutive chunks of `n` elements,
the last chunk possibly shorter. -/
def List.chunksOf {α : Type} (n : ℕ) (xs : List α) : List (List α) :=
  chunksAux xs.length n xs

/-- Rust `as usize` cast of a finite `f32`: truncate toward zero,
saturating at 0 for negative inputs (for `q ≥ 0` the floor is the
truncation; for `q < 0` the `toNat` saturates to 0 either way). -/
def f32ToUsize (q : ℚ) : ℕ := (⌊q⌋).toNat

/-- Rust `f32::clamp(lo, hi)` (requires `lo ≤ hi` in Rust). -/
def rustClamp (x lo hi : ℚ) : ℚ :=
  if x < lo then lo else if hi < x then hi else x

/-- Rust `f32::clamp(lo, hi)` on idealised real values. -/
noncomputable def rustClampR (x lo hi : ℝ) : ℝ :=
  if x < lo then lo else if hi < x then hi else x

/-! ## `src/audio/buffer.rs` -/

/-- `SAMPLE_RATE`: standard sample rate for internal processing. -/
def SAMPLE_RATE : ℕ := 48000

/-- `CHANNELS`: number of audio channels (stereo). -/
def CHANNELS : ℕ := 2

/-- `RawAudioBuffer`: raw audio buffer before quantization
(interleaved `f32` samples). -/
structure RawAudioBuffer where
  samples : List ℚ
  sample_rate : ℕ
  channels : ℕ
  deriving DecidableEq

/-- `RawAudioBuffer::to_mono`: convert to mono by averaging channels. -/
def RawAudioBuffer.to_mono (b : RawAudioBuffer) : List ℚ :=
  if b.channels = 1 then b.samples
  else (b.samples.chunksOf b.channels).map
    (fun frame => frame.sum / (b.channels : ℚ))

/-! ## `src/app.rs`: `LoopInfo`, `BpmMode` -/

/-- `LoopInfo`: metadata describing a quantized loop. -/
structure LoopInfo where
  bpm : ℚ
  source_bpm : ℚ
  bpm_confidence : ℝ
  time_stretched : Bool
  bars : ℕ
  beats_per_bar : ℕ
  duration_samples : ℕ
  sample_rate : ℕ

/-- `BpmMode`: auto-detect within a range, or a fixed target BPM. -/
inductive BpmMode where
  | Auto (min max : ℚ)
  | Fixed (bpm : ℚ)

/-- `LoopBuffer`: immutable loop buffer for playback.  Samples are in `ℝ`
because the quantizer's edge fades multiply by raised-cosine gains. -/
structure LoopBuffer where
  samples : List ℝ
  loop_info : LoopInfo

/-- `LoopBuffer::frame_count`: number of frames (samples per channel). -/
def LoopBuffer.frame_count (b : LoopBuffer) : ℕ :=
  b.samples.length / CHANNELS

/-- `LoopBuffer::samples_per_bar`: `self.samples.len() / self.loop_info.bars`. -/
def LoopBuffer.samples_per_bar (b : LoopBuffer) : ℕ :=
  b.samples.length / b.loop_info.bars

/-! ## `src/error.rs`: `AudioError` (payloads of external types simplified) -/

/-- `AudioError`: audio processing errors. -/
inductive AudioError where
  | StreamHttpError (code : ℕ)
  | StreamError (msg : String)
  | EmptyStream
  | FfmpegNotFound
  | FfmpegFailed (status : ℤ)
  | FfmpegError (msg : String)
  | Io (msg : String)
  | QuantizationFailed (msg : String)
  | AudioTooShort (need_secs : ℚ)
  | InvalidSampleRate (rate : ℕ)
  | DecodeError (msg : String)
  | NotMusic (reason : String)
  deriving DecidableEq

/-! ## `src/audio/stretch.rs`: `TimeStretcher` -/

/-- Behaviour of the external `ssstretch` library: given the interleaved
input samples, a channel selector (`false` = left, `true` = right) and an
output index, the sample value it writes.  The Rust code fixes only the
output length (pre-allocated vectors); the values are the library's. -/
def StretchLib : Type := List ℚ → Bool → ℕ → ℚ

/-- `TimeStretcher`: time-stretches audio to a target BPM. -/
structure TimeStretcher where
  sample_rate : ℚ

/-- `TimeStretcher::new`. -/
def TimeStretcher.new : TimeStretcher := ⟨(SAMPLE_RATE : ℚ)⟩

/-- `TimeStretcher::deinterleave`: split interleaved stereo into left/right
channels (an odd trailing sample is duplicated into the right channel). -/
def TimeStretcher.deinterleave (interleaved : List ℚ) : List ℚ × List ℚ :=
  ((interleaved.chunksOf 2).map (fun frame => frame.headD 0),
   (interleaved.chunksOf 2).map (fun frame => (frame.getD 1 (frame.headD 0))))

/-- `TimeStretcher::interleave`: zip left/right channels back into
interleaved stereo (`zip` stops at the shorter channel). -/
def TimeStretcher.interleave (left right : List ℚ) : List ℚ :=
  (left.zip right).flatMap (fun p => [p.1, p.2])

/-- `TimeStretcher::stretch_to_bpm`.  The ratio test and the output length
are the Rust code's; the stretched sample values come from `lib`. -/
def TimeStretcher.stretch_to_bpm (lib : StretchLib) (_st : TimeStretcher)
    (input : RawAudioBuffer) (source_bpm target_bpm : ℚ) : RawAudioBuffer :=
  let stretch_ratio := source_bpm / target_bpm
  if |stretch_ratio - 1| < 0.01 then
    ⟨input.samples, input.sample_rate, input.channels⟩
  else
    let left := (TimeStretcher.deinterleave input.samples).1
    let input_len := left.length
    let output_len := f32ToUsize ((input_len : ℚ) * stretch_ratio)
    let outL := (List.range output_len).map (fun i => lib input.samples false i)
    let outR := (List.range output_len).map (fun i => lib input.samples true i)
    ⟨TimeStretcher.interleave outL outR, SAMPLE_RATE, CHANNELS⟩

/-! ## `src/audio/quantize.rs`: `Quantizer` -/

/-- `BpmEstimate`: BPM estimation result. -/
structure BpmEstimate where
  bpm : ℚ
  confidence : ℝ

/-- `Quantizer`: audio quantizer for beat alignment with time-stretching. -/
structure Quantizer where
  min_bpm : ℚ
  max_bpm : ℚ
  stretcher : TimeStretcher

/-- `Quantizer::new`. -/
def Quantizer.new (min_bpm max_bpm : ℚ) : Quantizer :=
  ⟨min_bpm, max_bpm, TimeStretcher.new⟩

/-- `Quantizer::autocorrelate`: autocorrelation of the envelope at a lag. -/
noncomputable def Quantizer.autocorrelate (signal : List ℝ) (lag : ℕ) : ℝ :=
  let n := signal.length - lag
  if n = 0 then 0
  else (((signal.take n).zip (signal.drop lag)).map (fun p => p.1 * p.2)).sum
    / (n : ℝ)

/-- The windowed-RMS energy envelope computed at the start of
`Quantizer::detect_bpm` (window `rate/20`, hop `window/2`). -/
noncomputable def Quantizer.energyEnvelope (raw : RawAudioBuffer) : List ℝ :=
  let mono := raw.to_mono
  let window_size := raw.sample_rate / 20
  let hop_size := window_size / 2
  (mono.chunksOf hop_size).map
    (fun chunk =>
      Real.sqrt ((((chunk.map (fun s => s * s)).sum / (chunk.length : ℚ) : ℚ)
        : ℝ)))

/-- The correlation-scan loop of `Quantizer::detect_bpm`: fold over the lag
candidates keeping the first strictly-improving lag.  The running best
correlation starts at `f32::NEG_INFINITY`, modelled as `none` (every real
correlation strictly exceeds it). -/
noncomputable def Quantizer.bestLagLoop (f : ℕ → ℝ) :
    List ℕ → ℕ → Option ℝ → ℕ × Option ℝ
  | [], best_lag, best_corr => (best_lag, best_corr)
  | lag :: rest, best_lag, best_corr =>
    let c := f lag
    match best_corr with
    | none => Quantizer.bestLagLoop f rest lag (some c)
    | some b =>
      if c > b then Quantizer.bestLagLoop f rest lag (some c)
      else Quantizer.bestLagLoop f rest best_lag (some b)

/-- The lower end of the lag range in `Quantizer::detect_bpm`. -/
def Quantizer.minLagOf (raw : RawAudioBuffer) (max_bpm : ℚ) : ℕ :=
  let hop_size := raw.sample_rate / 20 / 2
  let envelope_rate : ℚ := (raw.sample_rate : ℚ) / (hop_size : ℚ)
  f32ToUsize (60 / max_bpm * envelope_rate)

/-- The upper end of the lag range in `Quantizer::detect_bpm`
(before clamping by half the envelope length). -/
def Quantizer.maxLagOf (raw : RawAudioBuffer) (min_bpm : ℚ) : ℕ :=
  let hop_size := raw.sample_rate / 20 / 2
  let envelope_rate : ℚ := (raw.sample_rate : ℚ) / (hop_size : ℚ)
  f32ToUsize (60 / min_bpm * envelope_rate)

/-- The inclusive lag candidate list
`min_lag..=max_lag.min(envelope.len() / 2)` of `Quantizer::detect_bpm`. -/
noncomputable def Quantizer.lagCandidates (raw : RawAudioBuffer)
    (min_bpm max_bpm : ℚ) : List ℕ :=
  let min_lag := Quantizer.minLagOf raw max_bpm
  let bound := min (Quantizer.maxLagOf raw min_bpm)
    ((Quantizer.energyEnvelope raw).length / 2)
  List.range' min_lag (bound + 1 - min_lag)

/-- The correlation scan of `Quantizer::detect_bpm`: best lag and best
correlation over the candidate lags. -/
noncomputable def Quantizer.lagScan (raw : RawAudioBuffer)
    (min_bpm max_bpm : ℚ) : ℕ × Option ℝ :=
  Quantizer.bestLagLoop
    (fun lag => Quantizer.autocorrelate (Quantizer.energyEnvelope raw) lag)
    (Quantizer.lagCandidates raw min_bpm max_bpm)
    (Quantizer.minLagOf raw max_bpm) none

/-- `Quantizer::detect_bpm`: BPM detection by energy-envelope
autocorrelation.  (When `best_lag = 0` the Rust `60.0 / 0.0 = ∞` clamps to
`max_bpm` while `ℚ` division by zero clamps to `min_bpm`; both stay inside
the range and no claim depends on the value there.) -/
noncomputable def Quantizer.detect_bpm (raw : RawAudioBuffer)
    (min_bpm max_bpm : ℚ) : BpmEstimate :=
  let envelope := Quantizer.energyEnvelope raw
  if envelope.length < 2 then ⟨120, 0⟩
  else
    let hop_size := raw.sample_rate / 20 / 2
    let envelope_rate : ℚ := (raw.sample_rate : ℚ) / (hop_size : ℚ)
    let scan := Quantizer.lagScan raw min_bpm max_bpm
    let bpm : ℚ := 60 / ((scan.1 : ℚ) / envelope_rate)
    let confidence : ℝ :=
      match scan.2 with
      | none => 0
      | some best => rustClampR ((best + 1) / 2) 0 1
    ⟨rustClamp bpm min_bpm max_bpm, confidence⟩

/-- The chunk loop of `Quantizer::detect_onsets`, carrying the hop index
and the previous hop's mean absolute energy. -/
def Quantizer.detectOnsetsGo (hop_size : ℕ) :
    ℕ → ℚ → List (List ℚ) → List ℕ
  | _, _, [] => []
  | i, prev_energy, chunk :: rest =>
    let energy := (chunk.map (fun s => |s|)).sum / (chunk.length : ℚ)
    let tail :=
      Quantizer.detectOnsetsGo hop_size (i + 1) (max energy 0.001) rest
    if energy > prev_energy * 1.5 ∧ energy > 0.01 then
      (i * hop_size * CHANNELS) :: tail
    else tail

/-- `Quantizer::detect_onsets`: onsets as stereo sample indices
`i * hop_size * CHANNELS` where hop `i`'s energy exceeds 1.5× the previous
hop's and is above 0.01. -/
def Quantizer.detect_onsets (raw : RawAudioBuffer) : List ℕ :=
  let mono := raw.to_mono
  Quantizer.detectOnsetsGo 512 0 0 (mono.chunksOf 512)

/-- `Quantizer::find_best_start`: the first onset leaving room for
`target_len` samples, else 0. -/
def Quantizer.find_best_start (raw : RawAudioBuffer) (onsets : List ℕ)
    (target_len : ℕ) : ℕ :=
  let max_start := raw.samples.length - target_len
  (onsets.find? (fun onset => onset < max_start)).getD 0

/-- The raised-cosine gain applied by `Quantizer::apply_fades` to sample
index `i` of a slice of length `len` with fade length `fade_samples`
(fade-in over the first `fade_samples` samples, fade-out over the last). -/
noncomputable def Quantizer.fadeGain (len fade_samples i : ℕ) : ℝ :=
  let fin : ℝ :=
    if i < fade_samples then
      0.5 * (1 - Real.cos (Real.pi * ((i : ℝ) / (fade_samples : ℝ))))
    else 1
  let fout : ℝ :=
    if len - fade_samples ≤ i ∧ i < len then
      0.5 * (1 - Real.cos (Real.pi * (((len - 1 - i : ℕ) : ℝ)
        / (fade_samples : ℝ))))
    else 1
  fin * fout

/-- `Quantizer::apply_fades`: fade in/out over
`min(2048, len / 4)` samples at each boundary. -/
noncomputable def Quantizer.apply_fades (samples : List ℝ) : List ℝ :=
  let fade_samples := min 2048 (samples.length / 4)
  samples.mapIdx
    (fun i s => s * Quantizer.fadeGain samples.length fade_samples i)

/-- The source-BPM estimate taken at step 1 of `Quantizer::quantize`. -/
noncomputable def Quantizer.sourceEstimate (q : Quantizer)
    (raw : RawAudioBuffer) : BpmEstimate :=
  Quantizer.detect_bpm raw q.min_bpm q.max_bpm

/-- The target BPM selected at step 2 of `Quantizer::quantize`. -/
noncomputable def Quantizer.targetBpm (q : Quantizer) (raw : RawAudioBuffer)
    (bpm_mode : BpmMode) : ℚ :=
  match bpm_mode with
  | .Fixed fixed_bpm => fixed_bpm
  | .Auto _ _ => (q.sourceEstimate raw).bpm

/-- The audio left after the optional time-stretch step of
`Quantizer::quantize` (step 2). -/
noncomputable def Quantizer.audioToProcess (lib : StretchLib) (q : Quantizer)
    (raw : RawAudioBuffer) (bpm_mode : BpmMode) : RawAudioBuffer :=
  match bpm_mode with
  | .Fixed fixed_bpm =>
    TimeStretcher.stretch_to_bpm lib q.stretcher raw
      (q.sourceEstimate raw).bpm fixed_bpm
  | .Auto _ _ => raw

/-- The loop duration in seconds computed at step 3 of
`Quantizer::quantize`. -/
noncomputable def Quantizer.loopDurationSecs (q : Quantizer)
    (raw : RawAudioBuffer) (bpm_mode : BpmMode) (bars beats_per_bar : ℕ) :
    ℚ :=
  let total_beats := bars * beats_per_bar
  let beat_duration_secs := 60 / q.targetBpm raw bpm_mode
  beat_duration_secs * (total_beats : ℚ)

/-- The target frame count computed at step 3 of `Quantizer::quantize`
(`(loop_duration_secs * SAMPLE_RATE as f32) as usize`). -/
noncomputable def Quantizer.targetFrames (q : Quantizer)
    (raw : RawAudioBuffer) (bpm_mode : BpmMode) (bars beats_per_bar : ℕ) :
    ℕ :=
  f32ToUsize (q.loopDurationSecs raw bpm_mode bars beats_per_bar
    * (SAMPLE_RATE : ℚ))

/-- `Quantizer::quantize`: detect BPM, optionally time-stretch, check the
length, pick an onset-aligned start, slice, fade, and build the
`LoopBuffer`. -/
noncomputable def Quantizer.quantize (lib : StretchLib) (q : Quantizer)
    (raw : RawAudioBuffer) (bpm_mode : BpmMode) (bars beats_per_bar : ℕ) :
    Except AudioError LoopBuffer :=
  let source_bpm := (q.sourceEstimate raw).bpm
  let detection_confidence := (q.sourceEstimate raw).confidence
  let target_bpm := q.targetBpm raw bpm_mode
  let confidence : ℝ :=
    match bpm_mode with
    | .Fixed _ => 1
    | .Auto _ _ => detection_confidence
  let audio_to_process := q.audioToProcess lib raw bpm_mode
  let loop_duration_secs := q.loopDurationSecs raw bpm_mode bars beats_per_bar
  let target_frames := q.targetFrames raw bpm_mode bars beats_per_bar
  let target_samples := target_frames * CHANNELS
  if audio_to_process.samples.length < target_samples then
    .error (.AudioTooShort loop_duration_secs)
  else
    let onsets := Quantizer.detect_onsets audio_to_process
    let start_sample :=
      Quantizer.find_best_start audio_to_process onsets target_samples
    let sliced :=
      ((audio_to_process.samples.drop start_sample).take target_samples).map
        (Rat.cast : ℚ → ℝ)
    let samples := Quantizer.apply_fades sliced
    let time_stretched :=
      (match bpm_mode with | .Fixed _ => true | .Auto _ _ => false)
        && decide (|source_bpm - target_bpm| > 0.5)
    .ok ⟨samples,
      { bpm := target_bpm
        source_bpm := source_bpm
        bpm_confidence := confidence
        time_stretched := time_stretched
        bars := bars
        beats_per_bar := beats_per_bar
        duration_samples := target_frames
        sample_rate := SAMPLE_RATE }⟩

/-! ## `src/audio/classifier.rs`: `AudioClassifier` -/

/-- `ContentType`: content type classification. -/
inductive ContentType where
  | Music
  | Speech
  | Silence
  | Unknown
  deriving DecidableEq

/-- `ContentType::is_music`: true for `Music` and `Unknown` (uncertain
content gets the benefit of the doubt). -/
def ContentType.is_music : ContentType → Bool
  | .Music | .Unknown => true
  | _ => false

/-- `ClassificationDetails`: detailed metrics from classification. -/
structure ClassificationDetails where
  rms : ℝ
  zero_crossing_rate : ℝ
  zcr_variance : ℝ
  spectral_flatness : ℝ
  energy_variance : ℝ
  silent_ratio : ℝ

/-- `ClassificationResult`: classification with confidence. -/
structure ClassificationResult where
  content_type : ContentType
  confidence : ℝ
  details : ClassificationDetails

/-- `AudioClassifier`: audio content classifier. -/
structure AudioClassifier where
  silence_threshold : ℝ
  silence_ratio_threshold : ℝ
  zcr_variance_threshold : ℝ
  spectral_flatness_threshold : ℝ

/-- `AudioClassifier::new`. -/
def AudioClassifier.new : AudioClassifier :=
  ⟨0.01, 0.5, 0.15, 0.3⟩

/-- `AudioClassifier::calculate_rms`: RMS energy of the mono signal. -/
noncomputable def AudioClassifier.calculate_rms (samples : List ℚ) : ℝ :=
  if samples.isEmpty then 0
  else Real.sqrt
    ((((samples.map (fun s => s * s)).sum / (samples.length : ℚ) : ℚ) : ℝ))

/-- `AudioClassifier::calculate_zcr_stats`: windowed zero-crossing rate,
returning the mean and the standard deviation across windows. -/
noncomputable def AudioClassifier.calculate_zcr_stats (samples : List ℚ) :
    ℝ × ℝ :=
  if samples.length < 2 then (0, 0)
  else
    let window_size := max (samples.length / 50) 1024
    let zcr_values : List ℚ :=
      ((samples.chunksOf window_size).filter (fun c => 2 ≤ c.length)).map
        (fun chunk =>
          let crossings :=
            ((chunk.zip chunk.tail).filter
              (fun w => (decide (0 ≤ w.1)) ≠ (decide (0 ≤ w.2)))).length
          (crossings : ℚ) / (chunk.length : ℚ))
    if zcr_values.isEmpty then (0, 0)
    else
      let mean_zcr := zcr_values.sum / (zcr_values.length : ℚ)
      let variance :=
        (zcr_values.map (fun z => (z - mean_zcr) ^ 2)).sum
          / (zcr_values.length : ℚ)
      ((mean_zcr : ℝ), Real.sqrt ((variance : ℚ) : ℝ))

/-- `AudioClassifier::calculate_spectral_flatness`: normalized entropy of a
20-bin histogram of absolute amplitudes (proxy for spectral flatness). -/
noncomputable def AudioClassifier.calculate_spectral_flatness
    (samples : List ℚ) : ℝ :=
  if samples.isEmpty then 0
  else
    let abs_samples := samples.map (fun s => |s|)
    let max_amp := abs_samples.foldl (fun a b => max a b) 0
    if max_amp < 0.001 then 1
    else
      let normalized := abs_samples.map (fun s => s / max_amp)
      let bins := 20
      let histogram := (List.range bins).map
        (fun b => (normalized.filter
          (fun s => min (f32ToUsize (s * ((bins : ℚ) - 1))) (bins - 1)
            = b)).length)
      let total : ℚ := (normalized.length : ℚ)
      let entropy : ℝ :=
        ((histogram.filter (fun count => 0 < count)).map
          (fun count =>
            let p : ℝ := ((((count : ℚ) / total : ℚ)) : ℝ)
            (-p) * Real.log p)).sum
      let max_entropy := Real.log (bins : ℝ)
      min (entropy / max_entropy) 1

/-- `AudioClassifier::calculate_energy_variance`: coefficient of variation
of the per-frame energy (~100 frames). -/
noncomputable def AudioClassifier.calculate_energy_variance
    (samples : List ℚ) : ℝ :=
  let frame_size := max (samples.length / 100) 512
  let energies := (samples.chunksOf frame_size).map
    (fun chunk => (chunk.map (fun s => s * s)).sum / (chunk.length : ℚ))
  if energies.isEmpty then 0
  else
    let mean_energy := energies.sum / (energies.length : ℚ)
    if mean_energy < 0.0001 then 0
    else
      let variance :=
        (energies.map (fun e => (e - mean_energy) ^ 2)).sum
          / (energies.length : ℚ)
      min (Real.sqrt ((variance : ℚ) : ℝ) / ((mean_energy : ℚ) : ℝ)) 1

/-- `AudioClassifier::calculate_silent_ratio`: fraction of ~100 frames whose
RMS is below the silence threshold. -/
noncomputable def AudioClassifier.calculate_silent_ratio
    (c : AudioClassifier) (samples : List ℚ) : ℝ :=
  let frame_size := max (samples.length / 100) 512
  let frames := samples.chunksOf frame_size
  let silent_frames := (frames.filter
    (fun chunk =>
      Real.sqrt ((((chunk.map (fun s => s * s)).sum / (chunk.length : ℚ)
        : ℚ) : ℝ)) < c.silence_threshold)).length
  let total_frames := frames.length
  if total_frames = 0 then 1
  else (silent_frames : ℝ) / (total_frames : ℝ)

/-- The feature block computed by `AudioClassifier::classify` on a
non-empty mono mixdown. -/
noncomputable def AudioClassifier.computeDetails (c : AudioClassifier)
    (mono : List ℚ) : ClassificationDetails :=
  let zcr_stats := AudioClassifier.calculate_zcr_stats mono
  { rms := AudioClassifier.calculate_rms mono
    zero_crossing_rate := zcr_stats.1
    zcr_variance := zcr_stats.2
    spectral_flatness := AudioClassifier.calculate_spectral_flatness mono
    energy_variance := AudioClassifier.calculate_energy_variance mono
    silent_ratio := c.calculate_silent_ratio mono }

/-- `AudioClassifier::calculate_speech_score`: additive thresholded
contributions, capped at 1. -/
noncomputable def AudioClassifier.calculate_speech_score
    (c : AudioClassifier) (details : ClassificationDetails) : ℝ :=
  let s1 : ℝ :=
    if details.zcr_variance > c.zcr_variance_threshold then 0.35
    else if details.zcr_variance > c.zcr_variance_threshold * 0.5 then 0.15
    else 0
  let s2 : ℝ :=
    if details.spectral_flatness > c.spectral_flatness_threshold then 0.35
    else if details.spectral_flatness
      > c.spectral_flatness_threshold * 0.7 then 0.15
    else 0
  let s3 : ℝ :=
    if details.energy_variance > 0.3 then 0.3
    else if details.energy_variance > 0.15 then 0.15
    else 0
  min (s1 + s2 + s3) 1

/-- `AudioClassifier::calculate_music_score`: additive thresholded
contributions, capped at 1. -/
noncomputable def AudioClassifier.calculate_music_score
    (c : AudioClassifier) (details : ClassificationDetails) : ℝ :=
  let s1 : ℝ :=
    if details.zcr_variance < c.zcr_variance_threshold * 0.5 then 0.3 else 0
  let s2 : ℝ :=
    if details.spectral_flatness < c.spectral_flatness_threshold * 0.5
    then 0.3 else 0
  let s3 : ℝ :=
    if details.energy_variance > 0.05 ∧ details.energy_variance < 0.25
    then 0.2 else 0
  let s4 : ℝ := if details.rms > 0.05 then 0.2 else 0
  let s5 : ℝ := if details.silent_ratio < 0.1 then 0.2 else 0
  min (s1 + s2 + s3 + s4 + s5) 1

/-- `AudioClassifier::classify_from_features`: the decision rule. -/
noncomputable def AudioClassifier.classify_from_features
    (c : AudioClassifier) (details : ClassificationDetails) :
    ContentType × ℝ :=
  if details.rms < c.silence_threshold
      ∨ details.silent_ratio > c.silence_ratio_threshold then
    (.Silence, 0.9)
  else
    let speech_score := c.calculate_speech_score details
    let music_score := c.calculate_music_score details
    if speech_score > 0.6 ∧ speech_score > music_score then
      (.Speech, min (speech_score - music_score) 0.5 + 0.5)
    else if music_score > 0.5 then
      (.Music, min (max (music_score - speech_score) 0) 0.4 + 0.6)
    else
      (.Unknown, 0.5)

/-- `AudioClassifier::classify`: classify audio content. -/
noncomputable def AudioClassifier.classify (c : AudioClassifier)
    (audio : RawAudioBuffer) : ClassificationResult :=
  let mono := audio.to_mono
  if mono.isEmpty then
    { content_type := .Silence
      confidence := 1
      details :=
        { rms := 0
          zero_crossing_rate := 0
          zcr_variance := 0
          spectral_flatness := 0
          energy_variance := 0
          silent_ratio := 1 } }
  else
    let details := c.computeDetails mono
    let decision := c.classify_from_features details
    { content_type := decision.1
      confidence := decision.2
      details := details }

/-! ## `src/audio/mod.rs`: pipeline acceptance policy -/

/-- The rejection test of `AudioPipeline::process_station` (step 3):
the clip is rejected with `NotMusic` exactly when
`!classification.content_type.is_music()`. -/
def processStationRejects (content_type : ContentType) : Bool :=
  !content_type.is_music

/-- The rejection test of `AudioPipeline::process_station_quick` (step 3):
only `Silence` is rejected. -/
def processStationQuickRejects (content_type : ContentType) : Bool :=
  content_type = .Silence

/-! ## `src/playback/source.rs`: `OneShotSource` -/

/-- `DEFAULT_CROSSFADE_SECS`: fallback crossfade duration. -/
def DEFAULT_CROSSFADE_SECS : ℚ := 0.5

/-- `CROSSFADE_BEATS`: number of beats for the crossfade. -/
def CROSSFADE_BEATS : ℚ := 1.0

/-- `OneShotSource`: one-shot audio source playing a buffer once with a
beat-aligned equal-power crossfade envelope. -/
structure OneShotSource where
  samples : List ℝ
  position : ℕ
  total_samples : ℕ
  fade_samples : ℕ
  fade_in : Bool
  fade_out : Bool

/-- `OneShotSource::with_fades`: build a source; the fade length is one
beat at the clip's BPM (0.5 s fallback), capped at half the clip. -/
def OneShotSource.with_fades (buffer : LoopBuffer) (fade_in fade_out : Bool) :
    OneShotSource :=
  let total_samples := buffer.samples.length
  let bpm := buffer.loop_info.bpm
  let fade_samples :=
    if bpm > 0 then
      let secs_per_beat := 60 / bpm
      let fade_secs := secs_per_beat * CROSSFADE_BEATS
      f32ToUsize (fade_secs * (SAMPLE_RATE : ℚ) * (CHANNELS : ℚ))
    else
      f32ToUsize (DEFAULT_CROSSFADE_SECS * (SAMPLE_RATE : ℚ)
        * (CHANNELS : ℚ))
  { samples := buffer.samples
    position := 0
    total_samples := total_samples
    fade_samples := min fade_samples (total_samples / 2)
    fade_in := fade_in
    fade_out := fade_out }

/-- `OneShotSource::new`: both fades enabled. -/
def OneShotSource.new (buffer : LoopBuffer) : OneShotSource :=
  OneShotSource.with_fades buffer true true

/-- `OneShotSource::fade_in_gain`: `sin(t·π/2)` inside the fade-in region,
1 outside. -/
noncomputable def OneShotSource.fade_in_gain (s : OneShotSource)
    (position : ℕ) : ℝ :=
  if s.fade_in = false ∨ s.fade_samples ≤ position then 1
  else
    let t : ℝ := (position : ℝ) / (s.fade_samples : ℝ)
    Real.sin (t * (Real.pi / 2))

/-- `OneShotSource::fade_out_gain`: `cos(t·π/2)` inside the tail fade
region, 1 outside. -/
noncomputable def OneShotSource.fade_out_gain (s : OneShotSource)
    (position : ℕ) : ℝ :=
  if s.fade_out = false then 1
  else
    let fade_start := s.total_samples - s.fade_samples
    if position < fade_start then 1
    else
      let t : ℝ := ((position - fade_start : ℕ) : ℝ) / (s.fade_samples : ℝ)
      Real.cos (t * (Real.pi / 2))

/-- `Iterator::next` for `OneShotSource`: emit the gained sample at the
cursor and advance, or end when the cursor reaches `total_samples`. -/
noncomputable def OneShotSource.next (s : OneShotSource) :
    Option (ℝ × OneShotSource) :=
  if s.total_samples ≤ s.position then none
  else
    let sample := s.samples.getD s.position 0
    let gain := s.fade_in_gain s.position * s.fade_out_gain s.position
    some (sample * gain, { s with position := s.position + 1 })

/-- Repeatedly call `next`, collecting the emitted samples and returning
the final iterator state (`fuel` bounds the number of calls). -/
noncomputable def OneShotSource.drain (s : OneShotSource) :
    ℕ → List ℝ × OneShotSource
  | 0 => ([], s)
  | fuel + 1 =>
    match s.next with
    | none => ([], s)
    | some (x, s') =>
      let rest := s'.drain fuel
      (x :: rest.1, rest.2)

/-! ## Specification-side comparator definitions and observations -/

/-- The classifier decision rule in the specification's words: `Silence`
(confidence 0.9) when RMS < 0.01 or the silent-frame fraction exceeds 0.5;
otherwise `Speech` exactly when the speech score exceeds 0.6 and the music
score; otherwise `Music` exactly when the music score exceeds 0.5;
otherwise `Unknown`.  Stated against the default classifier's scores for
comparison with `AudioClassifier.classify`. -/
noncomputable def specClassifierDecision (d : ClassificationDetails) :
    ContentType :=
  if d.rms < 0.01 ∨ d.silent_ratio > 0.5 then .Silence
  else if AudioClassifier.new.calculate_speech_score d > 0.6
      ∧ AudioClassifier.new.calculate_speech_score d
        > AudioClassifier.new.calculate_music_score d then .Speech
  else if AudioClassifier.new.calculate_music_score d > 0.5 then .Music
  else .Unknown

/-- The specification's tie-breaking rule for the correlation scan: the
element of the list maximising `f`, the earliest one when several tie. -/
noncomputable def specFirstArgmax (f : ℕ → ℝ) : List ℕ → Option ℕ
  | [] => none
  | l :: rest =>
    match specFirstArgmax f rest with
    | none => some l
    | some b => if f b > f l then some b else some l

/-- Observation: does a quantization result carry the `AudioTooShort`
error? -/
def isAudioTooShort : Except AudioError LoopBuffer → Bool
  | .error (.AudioTooShort _) => true
  | _ => false

/-- Observation: is a quantization result a `LoopBuffer`? -/
def isOkResult : Except AudioError LoopBuffer → Bool
  | .ok _ => true
  | .error _ => false

/-- A trivial stand-in behaviour for the external stretch library, used to
instantiate library-quantified theorems at concrete inputs. -/
def silentStretchLib : StretchLib := fun _ _ _ => 0

/-- A concrete well-formed `LoopBuffer` used as a test vector: four
interleaved samples, two frames, one bar. -/
def sampleLoopBuffer : LoopBuffer :=
  ⟨[1, 1, 1, 1], ⟨120, 120, 1, false, 1, 4, 2, 48000⟩⟩

/-! ## Helper lemmas -/

/-- Every index emitted by the onset-detection loop has the form
`i * hop_size * CHANNELS` and is hence divisible by `CHANNELS`. -/
lemma detectOnsetsGo_mem_mod (hop : ℕ) :
    ∀ (chunks : List (List ℚ)) (i : ℕ) (prev : ℚ) (o : ℕ),
      o ∈ Quantizer.detectOnsetsGo hop i prev chunks → o % CHANNELS = 0 := by
  intro chunks
  induction chunks with
  | nil => intro i prev o ho; simp [Quantizer.detectOnsetsGo] at ho
  | cons c rest ih =>
    intro i prev o ho
    simp only [Quantizer.detectOnsetsGo] at ho
    split at ho
    · rcases List.mem_cons.mp ho with h | h
      · subst h; exact Nat.mul_mod_left (i * hop) CHANNELS
      · exact ih _ _ _ h
    · exact ih _ _ _ ho

/-- `find_best_start` returns a detected onset or 0. -/
lemma find_best_start_mem_or_zero (raw : RawAudioBuffer) (onsets : List ℕ)
    (target_len : ℕ) :
    Quantizer.find_best_start raw onsets target_len ∈ onsets
      ∨ Quantizer.find_best_start raw onsets target_len = 0 := by
  rcases hf : onsets.find? (fun onset =>
      onset < raw.samples.length - target_len) with _ | o
  · right; simp [Quantizer.find_best_start, hf]
  · left
    have hm := List.mem_of_find?_eq_some hf
    simpa [Quantizer.find_best_start, hf] using hm

/-- `find_best_start` leaves room for `target_len` samples. -/
lemma find_best_start_le (raw : RawAudioBuffer) (onsets : List ℕ)
    (target_len : ℕ) (h : target_len ≤ raw.samples.length) :
    Quantizer.find_best_start raw onsets target_len + target_len
      ≤ raw.samples.length := by
  rcases hf : onsets.find? (fun onset =>
      onset < raw.samples.length - target_len) with _ | o
  · simpa [Quantizer.find_best_start, hf] using h
  · have ho := List.find?_some hf
    simp only [decide_eq_true_eq] at ho
    simp only [Quantizer.find_best_start, hf, Option.getD_some]
    omega

/-- `apply_fades` preserves the sample count. -/
lemma apply_fades_length (samples : List ℝ) :
    (Quantizer.apply_fades samples).length = samples.length := by
  simp [Quantizer.apply_fades]

/-- Draining an exhausted source yields nothing. -/
lemma OneShotSource.next_none (s : OneShotSource)
    (h : s.total_samples ≤ s.position) : s.next = none := by
  simp [OneShotSource.next, h]

/-- Draining exactly the remaining samples yields that many values and
leaves the iterator exhausted. -/
lemma OneShotSource.drain_spec (n : ℕ) :
    ∀ s : OneShotSource, s.position + n = s.total_samples →
      (s.drain n).1.length = n ∧ (s.drain n).2.next = none := by
  induction n with
  | zero =>
    intro s h
    refine ⟨by simp [OneShotSource.drain], ?_⟩
    simp only [OneShotSource.drain]
    exact s.next_none (by omega)
  | succ n ih =>
    intro s h
    have hlt : ¬ s.total_samples ≤ s.position := by omega
    have hnext : s.next = some (s.samples.getD s.position 0
        * (s.fade_in_gain s.position * s.fade_out_gain s.position),
        { s with position := s.position + 1 }) := by
      simp [OneShotSource.next, hlt]
    have ihs := ih { s with position := s.position + 1 } (by simp; omega)
    simp only [OneShotSource.drain, hnext]
    exact ⟨by simp [ihs.1], ihs.2⟩

/-- Rust `clamp` stays inside `[lo, hi]` whenever `lo ≤ hi`. -/
lemma rustClamp_bounds (x lo hi : ℚ) (h : lo ≤ hi) :
    lo ≤ rustClamp x lo hi ∧ rustClamp x lo hi ≤ hi := by
  unfold rustClamp
  split_ifs with h1 h2 <;> constructor <;> linarith

/-- An empty stereo buffer has an empty mono mixdown. -/
lemma to_mono_empty_stereo (rate : ℕ) :
    (RawAudioBuffer.mk [] rate 2).to_mono = [] := by
  simp [RawAudioBuffer.to_mono, List.chunksOf, chunksAux]

/-- BPM detection on the empty stereo buffer hits the degenerate-envelope
branch and yields the 120-BPM fallback. -/
lemma detect_bpm_empty_eval :
    Quantizer.detect_bpm ⟨[], 48000, 2⟩ 70 170 = ⟨120, 0⟩ := by
  simp [Quantizer.detect_bpm, Quantizer.energyEnvelope, to_mono_empty_stereo,
    List.chunksOf, chunksAux]

/-! ## Claim theorems -/

/-- C6: `process_station` rejects a clip (with `NotMusic`) exactly when the
classifier returns `Speech` or `Silence`, and proceeds to quantization
exactly for `Music` and `Unknown`; `process_station_quick` rejects exactly
`Silence`. -/
theorem pipeline_rejection_policy (ct : ContentType) :
    (processStationRejects ct = true ↔ (ct = .Speech ∨ ct = .Silence))
    ∧ (processStationRejects ct = false ↔ (ct = .Music ∨ ct = .Unknown))
    ∧ (processStationQuickRejects ct = true ↔ ct = .Silence) := by
  cases ct <;>
    simp [processStationRejects, processStationQuickRejects,
      ContentType.is_music]

/-- C9: every onset index reported by `detect_onsets` is a multiple of the
channel count, and the slice start chosen by `find_best_start` (an onset, or
the fallback 0) is therefore always a multiple of `CHANNELS`: the extracted
loop begins on a frame boundary. -/
theorem loop_start_frame_aligned (raw : RawAudioBuffer) (target_len : ℕ) :
    (Quantizer.detect_onsets raw).all (fun o => o % CHANNELS = 0) = true
    ∧ Quantizer.find_best_start raw (Quantizer.detect_onsets raw) target_len
        % CHANNELS = 0 := by
  have hall : ∀ o ∈ Quantizer.detect_onsets raw, o % CHANNELS = 0 := by
    intro o ho
    exact detectOnsetsGo_mem_mod 512 _ 0 0 o
      (by simpa [Quantizer.detect_onsets] using ho)
  constructor
  · simpa [List.all_eq_true] using hall
  · rcases find_best_start_mem_or_zero raw (Quantizer.detect_onsets raw)
        target_len with h | h
    · exact hall _ h
    · simp [h]

/-- C10: on an empty audio buffer (empty mono mixdown) the classifier is
total and short-circuits: it returns `Silence` with confidence 1.0 and
all-zero features except `silent_ratio = 1.0`, without entering the
threshold decision rule. -/
theorem classify_empty_input (sample_rate channels : ℕ)
    (_hch : 0 < channels) :
    AudioClassifier.new.classify ⟨[], sample_rate, channels⟩ =
      ⟨.Silence, 1, ⟨0, 0, 0, 0, 0, 1⟩⟩ := by
  have hmono : (RawAudioBuffer.mk [] sample_rate channels).to_mono = [] := by
    unfold RawAudioBuffer.to_mono
    split <;> rfl
  simp [AudioClassifier.classify, hmono]

/-- Witness for C10 at a concrete input. -/
theorem classify_empty_input_witness :
    0 < 2 ∧ AudioClassifier.new.classify ⟨[], 48000, 2⟩ =
      ⟨.Silence, 1, ⟨0, 0, 0, 0, 0, 1⟩⟩ :=
  ⟨by decide, classify_empty_input 48000 2 (by decide)⟩

/-- C2: a one-shot source built from a `LoopBuffer` whose sample count is
`duration_frames * channels` emits exactly that many samples, after which
the iterator is exhausted (`next` returns `None`, and since `next` does not
change an exhausted state, every subsequent call also returns `None`). -/
theorem oneshot_emits_exact_frames (buf : LoopBuffer)
    (h : buf.samples.length = buf.loop_info.duration_samples * CHANNELS) :
    ((OneShotSource.new buf).drain
        (buf.loop_info.duration_samples * CHANNELS)).1.length
      = buf.loop_info.duration_samples * CHANNELS
    ∧ ((OneShotSource.new buf).drain
        (buf.loop_info.duration_samples * CHANNELS)).2.next = none := by
  refine OneShotSource.drain_spec _ _ ?_
  simp [OneShotSource.new, OneShotSource.with_fades, h]

/-- Witness for C2 at a concrete one-frame stereo buffer. -/
theorem oneshot_emits_exact_frames_witness :
    (LoopBuffer.mk [1, 2] ⟨120, 120, 1, false, 1, 4, 1, 48000⟩).samples.length
      = 1 * CHANNELS
    ∧ (((OneShotSource.new
          (LoopBuffer.mk [1, 2] ⟨120, 120, 1, false, 1, 4, 1, 48000⟩)).drain
          (1 * CHANNELS)).1.length = 1 * CHANNELS
      ∧ ((OneShotSource.new
          (LoopBuffer.mk [1, 2] ⟨120, 120, 1, false, 1, 4, 1, 48000⟩)).drain
          (1 * CHANNELS)).2.next = none) :=
  ⟨by decide,
   oneshot_emits_exact_frames
     (LoopBuffer.mk [1, 2] ⟨120, 120, 1, false, 1, 4, 1, 48000⟩) (by decide)⟩

/-- C3: for a one-shot source with both fades enabled and a positive fade
length, the equal-power law holds at every fade position `i`: the fade-in
gain at `i` and the fade-out gain at the mirrored tail position
`total_samples - fade_samples + i` satisfy
`gin² + gout² ∈ [0.99, 1.01]` (the sum is exactly `sin² + cos² = 1`). -/
theorem oneshot_equal_power_crossfade (buf : LoopBuffer) (i : ℕ)
    (_hfade : 0 < (OneShotSource.with_fades buf true true).fade_samples)
    (hi : i < (OneShotSource.with_fades buf true true).fade_samples) :
    (0.99 : ℝ) ≤
      (OneShotSource.with_fades buf true true).fade_in_gain i ^ 2
      + (OneShotSource.with_fades buf true true).fade_out_gain
          ((OneShotSource.with_fades buf true true).total_samples
            - (OneShotSource.with_fades buf true true).fade_samples + i) ^ 2
    ∧ (OneShotSource.with_fades buf true true).fade_in_gain i ^ 2
      + (OneShotSource.with_fades buf true true).fade_out_gain
          ((OneShotSource.with_fades buf true true).total_samples
            - (OneShotSource.with_fades buf true true).fade_samples + i) ^ 2
      ≤ (1.01 : ℝ) := by
  set s := OneShotSource.with_fades buf true true with hs
  have hin : s.fade_in = true := by simp [hs, OneShotSource.with_fades]
  have hout : s.fade_out = true := by simp [hs, OneShotSource.with_fades]
  have hgin : s.fade_in_gain i
      = Real.sin ((i : ℝ) / (s.fade_samples : ℝ) * (Real.pi / 2)) := by
    rw [OneShotSource.fade_in_gain, if_neg]
    push_neg
    exact ⟨by simp [hin], hi⟩
  have hgout : s.fade_out_gain (s.total_samples - s.fade_samples + i)
      = Real.cos ((i : ℝ) / (s.fade_samples : ℝ) * (Real.pi / 2)) := by
    have h1 : ¬ (s.fade_out = false) := by simp [hout]
    have h2 : ¬ (s.total_samples - s.fade_samples + i
        < s.total_samples - s.fade_samples) := by omega
    have harith : s.total_samples - s.fade_samples + i
        - (s.total_samples - s.fade_samples) = i := by omega
    simp only [OneShotSource.fade_out_gain, if_neg h1, if_neg h2, harith]
  rw [hgin, hgout]
  have hpow := Real.sin_sq_add_cos_sq
    ((i : ℝ) / (s.fade_samples : ℝ) * (Real.pi / 2))
  constructor <;> rw [hpow] <;> norm_num

/-- Witness for C3 at a concrete buffer (fade length 2, position 1). -/
theorem oneshot_equal_power_crossfade_witness :
    0 < (OneShotSource.with_fades
        (LoopBuffer.mk [1, 1, 1, 1] ⟨120, 120, 1, false, 1, 4, 2, 48000⟩)
        true true).fade_samples
    ∧ 1 < (OneShotSource.with_fades
        (LoopBuffer.mk [1, 1, 1, 1] ⟨120, 120, 1, false, 1, 4, 2, 48000⟩)
        true true).fade_samples
    ∧ ((0.99 : ℝ) ≤
        (OneShotSource.with_fades
          (LoopBuffer.mk [1, 1, 1, 1] ⟨120, 120, 1, false, 1, 4, 2, 48000⟩)
          true true).fade_in_gain 1 ^ 2
        + (OneShotSource.with_fades
          (LoopBuffer.mk [1, 1, 1, 1] ⟨120, 120, 1, false, 1, 4, 2, 48000⟩)
          true true).fade_out_gain
            ((OneShotSource.with_fades
              (LoopBuffer.mk [1, 1, 1, 1] ⟨120, 120, 1, false, 1, 4, 2, 48000⟩)
              true true).total_samples
            - (OneShotSource.with_fades
              (LoopBuffer.mk [1, 1, 1, 1] ⟨120, 120, 1, false, 1, 4, 2, 48000⟩)
              true true).fade_samples + 1) ^ 2
      ∧ (OneShotSource.with_fades
          (LoopBuffer.mk [1, 1, 1, 1] ⟨120, 120, 1, false, 1, 4, 2, 48000⟩)
          true true).fade_in_gain 1 ^ 2
        + (OneShotSource.with_fades
          (LoopBuffer.mk [1, 1, 1, 1] ⟨120, 120, 1, false, 1, 4, 2, 48000⟩)
          true true).fade_out_gain
            ((OneShotSource.with_fades
              (LoopBuffer.mk [1, 1, 1, 1] ⟨120, 120, 1, false, 1, 4, 2, 48000⟩)
              true true).total_samples
            - (OneShotSource.with_fades
              (LoopBuffer.mk [1, 1, 1, 1] ⟨120, 120, 1, false, 1, 4, 2, 48000⟩)
              true true).fade_samples + 1) ^ 2 ≤ (1.01 : ℝ)) := by
  have hfs : (OneShotSource.with_fades
      (LoopBuffer.mk [1, 1, 1, 1] ⟨120, 120, 1, false, 1, 4, 2, 48000⟩)
      true true).fade_samples = 2 := by
    norm_num [OneShotSource.with_fades, f32ToUsize, CROSSFADE_BEATS,
      SAMPLE_RATE, CHANNELS]
  refine ⟨by rw [hfs]; norm_num, by rw [hfs]; norm_num, ?_⟩
  exact oneshot_equal_power_crossfade
    (LoopBuffer.mk [1, 1, 1, 1] ⟨120, 120, 1, false, 1, 4, 2, 48000⟩) 1
    (by rw [hfs]; norm_num) (by rw [hfs]; norm_num)

/-- C4: on a non-empty mono mixdown the default classifier decides exactly
by the spec's rule (silence thresholds, then speech score > 0.6 and above
the music score, then music score > 0.5, else Unknown), and the `Silence`
outcome carries confidence 0.9. -/
theorem classifier_decision_rule (a : RawAudioBuffer)
    (_hch : 0 < a.channels) (hmono : a.to_mono ≠ []) :
    (AudioClassifier.new.classify a).content_type
      = specClassifierDecision (AudioClassifier.new.computeDetails a.to_mono)
    ∧ (((AudioClassifier.new.computeDetails a.to_mono).rms < 0.01
        ∨ (AudioClassifier.new.computeDetails a.to_mono).silent_ratio > 0.5)
      → (AudioClassifier.new.classify a).confidence = 0.9) := by
  have hne : a.to_mono.isEmpty = false := by
    cases h : a.to_mono with
    | nil => exact absurd h hmono
    | cons x xs => rfl
  constructor
  · simp only [AudioClassifier.classify, hne, Bool.false_eq_true, if_false]
    simp only [AudioClassifier.classify_from_features, specClassifierDecision,
      AudioClassifier.new]
    split_ifs <;> rfl
  · intro h
    simp only [AudioClassifier.classify, hne, Bool.false_eq_true, if_false]
    have h' : (AudioClassifier.new.computeDetails a.to_mono).rms
          < AudioClassifier.new.silence_threshold
        ∨ (AudioClassifier.new.computeDetails a.to_mono).silent_ratio
          > AudioClassifier.new.silence_ratio_threshold := h
    unfold AudioClassifier.classify_from_features
    rw [if_pos h']

/-- Witness for C4 at a concrete two-sample mono input. -/
theorem classifier_decision_rule_witness :
    0 < (1 : ℕ)
    ∧ (RawAudioBuffer.mk [0, 0] 48000 1).to_mono ≠ []
    ∧ (AudioClassifier.new.classify ⟨[0, 0], 48000, 1⟩).content_type
      = specClassifierDecision (AudioClassifier.new.computeDetails
          (RawAudioBuffer.mk [0, 0] 48000 1).to_mono) := by
  have hm : (RawAudioBuffer.mk [0, 0] 48000 1).to_mono ≠ [] := by
    simp [RawAudioBuffer.to_mono]
  exact ⟨by decide, hm,
    (classifier_decision_rule ⟨[0, 0], 48000, 1⟩ (by decide) hm).1⟩

/-- The scan loop started on a running best realises the specification's
first-argmax rule relative to the running best correlation. -/
lemma bestLagLoop_some (f : ℕ → ℝ) :
    ∀ (lags : List ℕ) (bl : ℕ) (b : ℝ),
      (Quantizer.bestLagLoop f lags bl (some b)).1
        = match specFirstArgmax f lags with
          | none => bl
          | some m => if f m > b then m else bl := by
  intro lags
  induction lags with
  | nil => intro bl b; simp [Quantizer.bestLagLoop, specFirstArgmax]
  | cons l rest ih =>
    intro bl b
    simp only [Quantizer.bestLagLoop, specFirstArgmax]
    by_cases hlb : f l > b
    · rw [if_pos hlb, ih]
      rcases hrest : specFirstArgmax f rest with _ | m
      · simp [if_pos hlb]
      · by_cases hml : f m > f l
        · have hmb : f m > b := lt_trans hlb hml
          simp [if_pos hml, if_pos hmb, if_pos hml]
        · simp [if_neg hml, if_pos hlb]
    · rw [if_neg hlb, ih]
      rcases hrest : specFirstArgmax f rest with _ | m
      · simp [if_neg hlb]
      · by_cases hml : f m > f l
        · simp [if_pos hml]
        · have hmb : ¬ f m > b := by
            push_neg at hml hlb ⊢
            exact le_trans hml hlb
          simp [if_neg hml, if_neg hmb, if_neg hlb]

/-- The scan loop started from the `NEG_INFINITY` sentinel returns the
specification's first argmax (or the initial lag on an empty range). -/
lemma bestLagLoop_none (f : ℕ → ℝ) (lags : List ℕ) (bl : ℕ) :
    (Quantizer.bestLagLoop f lags bl none).1
      = (specFirstArgmax f lags).getD bl := by
  cases lags with
  | nil => simp [Quantizer.bestLagLoop, specFirstArgmax]
  | cons l rest =>
    simp only [Quantizer.bestLagLoop, specFirstArgmax]
    rw [bestLagLoop_some]
    rcases hrest : specFirstArgmax f rest with _ | m
    · simp
    · by_cases hml : f m > f l
      · simp [if_pos hml]
      · simp [if_neg hml]

/-- C5: the BPM detector (a) returns exactly `{bpm 120, confidence 0}` on a
degenerate envelope (< 2 samples), (b) always returns a BPM inside the
closed input range `[min_bpm, max_bpm]` on a non-degenerate envelope, and
(c) its correlation scan picks the first (smallest) lag among
equally-correlating lags. -/
theorem detect_bpm_contract (raw : RawAudioBuffer) (min_bpm max_bpm : ℚ)
    (_hmin : 0 < min_bpm) (hle : min_bpm ≤ max_bpm)
    (_hrate : 40 ≤ raw.sample_rate) :
    ((Quantizer.energyEnvelope raw).length < 2 →
      Quantizer.detect_bpm raw min_bpm max_bpm = ⟨120, 0⟩)
    ∧ (2 ≤ (Quantizer.energyEnvelope raw).length →
        min_bpm ≤ (Quantizer.detect_bpm raw min_bpm max_bpm).bpm
        ∧ (Quantizer.detect_bpm raw min_bpm max_bpm).bpm ≤ max_bpm)
    ∧ (Quantizer.lagScan raw min_bpm max_bpm).1
        = (specFirstArgmax
            (fun lag =>
              Quantizer.autocorrelate (Quantizer.energyEnvelope raw) lag)
            (Quantizer.lagCandidates raw min_bpm max_bpm)).getD
          (Quantizer.minLagOf raw max_bpm) := by
  refine ⟨?_, ?_, ?_⟩
  · intro h
    simp [Quantizer.detect_bpm, h]
  · intro h
    have h' : ¬ ((Quantizer.energyEnvelope raw).length < 2) := by omega
    simp only [Quantizer.detect_bpm, if_neg h']
    exact rustClamp_bounds _ _ _ hle
  · exact bestLagLoop_none _ _ _

/-- Witness for C5 at a concrete input with a 2-sample envelope. -/
theorem detect_bpm_contract_witness :
    (0 : ℚ) < 70
    ∧ (70 : ℚ) ≤ 170
    ∧ 40 ≤ (RawAudioBuffer.mk [0, 0] 40 1).sample_rate
    ∧ 2 ≤ (Quantizer.energyEnvelope ⟨[0, 0], 40, 1⟩).length
    ∧ (70 ≤ (Quantizer.detect_bpm ⟨[0, 0], 40, 1⟩ 70 170).bpm
      ∧ (Quantizer.detect_bpm ⟨[0, 0], 40, 1⟩ 70 170).bpm ≤ 170) := by
  have henv : (Quantizer.energyEnvelope ⟨[0, 0], 40, 1⟩).length = 2 := by
    simp [Quantizer.energyEnvelope, RawAudioBuffer.to_mono, List.chunksOf,
      chunksAux]
  refine ⟨by norm_num, by norm_num, by norm_num, by rw [henv], ?_⟩
  exact (detect_bpm_contract ⟨[0, 0], 40, 1⟩ 70 170 (by norm_num)
    (by norm_num) (by norm_num)).2.1 (by rw [henv])

/-- C7: on the panic-free input domain (positive BPM range and target, a
sample rate giving a positive envelope hop, a positive channel count),
`quantize` returns the `AudioTooShort` error exactly when the audio left
after the optional time-stretch step is shorter than
`target_frames * CHANNELS` samples, and returns a `LoopBuffer` exactly
otherwise. -/
theorem quantize_too_short_iff (lib : StretchLib) (q : Quantizer)
    (raw : RawAudioBuffer) (bpm_mode : BpmMode) (bars beats_per_bar : ℕ)
    (_h40 : 40 ≤ raw.sample_rate) (_hch : 0 < raw.channels)
    (_hmin : 0 < q.min_bpm) (_hle : q.min_bpm ≤ q.max_bpm)
    (_htgt : 0 < q.targetBpm raw bpm_mode) :
    (isAudioTooShort (q.quantize lib raw bpm_mode bars beats_per_bar) = true
      ↔ (q.audioToProcess lib raw bpm_mode).samples.length
          < q.targetFrames raw bpm_mode bars beats_per_bar * CHANNELS)
    ∧ (isOkResult (q.quantize lib raw bpm_mode bars beats_per_bar) = true
      ↔ q.targetFrames raw bpm_mode bars beats_per_bar * CHANNELS
          ≤ (q.audioToProcess lib raw bpm_mode).samples.length) := by
  by_cases h : (q.audioToProcess lib raw bpm_mode).samples.length
      < q.targetFrames raw bpm_mode bars beats_per_bar * CHANNELS
  · constructor
    · simp only [Quantizer.quantize, if_pos h]
      simp [isAudioTooShort, h]
    · simp only [Quantizer.quantize, if_pos h]
      simp only [isOkResult, Bool.false_eq_true, false_iff]
      omega
  · constructor
    · simp only [Quantizer.quantize, if_neg h]
      simp [isAudioTooShort, h]
    · simp only [Quantizer.quantize, if_neg h]
      simp only [isOkResult, true_iff]
      omega

/-- Witness for C7 at the empty stereo buffer in auto-BPM mode. -/
theorem quantize_too_short_iff_witness :
    40 ≤ (RawAudioBuffer.mk [] 48000 2).sample_rate
    ∧ 0 < (Quantizer.new 70 170).min_bpm
    ∧ 0 < (Quantizer.new 70 170).targetBpm ⟨[], 48000, 2⟩
        (BpmMode.Auto 70 170)
    ∧ ((isAudioTooShort ((Quantizer.new 70 170).quantize silentStretchLib
          ⟨[], 48000, 2⟩ (BpmMode.Auto 70 170) 1 1) = true
        ↔ ((Quantizer.new 70 170).audioToProcess silentStretchLib
            ⟨[], 48000, 2⟩ (BpmMode.Auto 70 170)).samples.length
          < (Quantizer.new 70 170).targetFrames ⟨[], 48000, 2⟩
              (BpmMode.Auto 70 170) 1 1 * CHANNELS)
      ∧ (isOkResult ((Quantizer.new 70 170).quantize silentStretchLib
          ⟨[], 48000, 2⟩ (BpmMode.Auto 70 170) 1 1) = true
        ↔ (Quantizer.new 70 170).targetFrames ⟨[], 48000, 2⟩
            (BpmMode.Auto 70 170) 1 1 * CHANNELS
          ≤ ((Quantizer.new 70 170).audioToProcess silentStretchLib
              ⟨[], 48000, 2⟩ (BpmMode.Auto 70 170)).samples.length)) := by
  have htgt : (Quantizer.new 70 170).targetBpm ⟨[], 48000, 2⟩
      (BpmMode.Auto 70 170) = 120 := by
    simp [Quantizer.targetBpm, Quantizer.sourceEstimate, Quantizer.new,
      detect_bpm_empty_eval]
  refine ⟨by norm_num, by norm_num [Quantizer.new],
    by rw [htgt]; norm_num, ?_⟩
  exact quantize_too_short_iff silentStretchLib (Quantizer.new 70 170)
    ⟨[], 48000, 2⟩ (BpmMode.Auto 70 170) 1 1 (by norm_num) (by norm_num)
    (by norm_num [Quantizer.new]) (by norm_num [Quantizer.new])
    (by rw [htgt]; norm_num)

/-- C1 (amended): every successful `quantize` call yields a `LoopBuffer`
with `samples.length = duration_frames * CHANNELS`, where `duration_frames`
is the TRUNCATION (Rust `as usize`, not rounding) of
`bars * beats_per_bar * 60 / target_bpm * SAMPLE_RATE`. -/
theorem quantize_length_invariant (lib : StretchLib) (q : Quantizer)
    (raw : RawAudioBuffer) (bpm_mode : BpmMode) (bars beats_per_bar : ℕ)
    (buf : LoopBuffer)
    (_h40 : 40 ≤ raw.sample_rate) (_hch : 0 < raw.channels)
    (_hmin : 0 < q.min_bpm) (_hle : q.min_bpm ≤ q.max_bpm)
    (_htgt : 0 < q.targetBpm raw bpm_mode)
    (hok : q.quantize lib raw bpm_mode bars beats_per_bar = .ok buf) :
    buf.samples.length = buf.loop_info.duration_samples * CHANNELS
    ∧ buf.loop_info.duration_samples
      = f32ToUsize (60 / buf.loop_info.bpm
          * ((buf.loop_info.bars * buf.loop_info.beats_per_bar : ℕ) : ℚ)
          * (SAMPLE_RATE : ℚ)) := by
  by_cases h : (q.audioToProcess lib raw bpm_mode).samples.length
      < q.targetFrames raw bpm_mode bars beats_per_bar * CHANNELS
  · simp only [Quantizer.quantize, if_pos h] at hok
    exact absurd hok (by simp)
  · simp only [Quantizer.quantize, if_neg h] at hok
    injection hok with hbuf
    subst hbuf
    constructor
    · have hle2 : q.targetFrames raw bpm_mode bars beats_per_bar * CHANNELS
          ≤ (q.audioToProcess lib raw bpm_mode).samples.length := by omega
      have hstart := find_best_start_le (q.audioToProcess lib raw bpm_mode)
        (Quantizer.detect_onsets (q.audioToProcess lib raw bpm_mode))
        (q.targetFrames raw bpm_mode bars beats_per_bar * CHANNELS) hle2
      dsimp only
      rw [apply_fades_length, List.length_map, List.length_take,
        List.length_drop]
      omega
    · rfl

/-- Full evaluation of `quantize` on the empty stereo buffer in fixed-BPM
mode at 3 000 000 BPM: the call succeeds (target length truncates to 0
frames) and returns an empty loop. -/
lemma quantize_empty_fixed_eval :
    (Quantizer.new 70 170).quantize silentStretchLib ⟨[], 48000, 2⟩
      (BpmMode.Fixed 3000000) 1 1
    = .ok ⟨[], ⟨3000000, 120, 1, true, 1, 1, 0, 48000⟩⟩ := by
  have hat : (Quantizer.new 70 170).audioToProcess silentStretchLib
      ⟨[], 48000, 2⟩ (BpmMode.Fixed 3000000)
      = ⟨[], 48000, 2⟩ := by
    simp only [Quantizer.audioToProcess, Quantizer.sourceEstimate,
      Quantizer.new, detect_bpm_empty_eval]
    have hcond : ¬ (|(120 : ℚ) / 3000000 - 1| < 0.01) := by
      rw [abs_sub_comm, abs_of_pos (by norm_num)]
      norm_num
    rw [TimeStretcher.stretch_to_bpm, if_neg hcond]
    simp [TimeStretcher.deinterleave, TimeStretcher.interleave,
      List.chunksOf, chunksAux, f32ToUsize, SAMPLE_RATE, CHANNELS]
  have hframes : (Quantizer.new 70 170).targetFrames ⟨[], 48000, 2⟩
      (BpmMode.Fixed 3000000) 1 1 = 0 := by
    simp only [Quantizer.targetFrames, Quantizer.loopDurationSecs,
      Quantizer.targetBpm]
    norm_num [f32ToUsize, SAMPLE_RATE]
  have hcmp : (0.5 : ℚ) < |(120 : ℚ) - 3000000| := by
    have habs : |(120 : ℚ) - 3000000| = 2999880 := by
      rw [abs_sub_comm, show (3000000 : ℚ) - 120 = 2999880 by norm_num]
      exact abs_of_pos (by norm_num)
    rw [habs]
    norm_num
  simp only [Quantizer.quantize, hat, hframes]
  rw [if_neg (by simp)]
  simp only [Quantizer.sourceEstimate, Quantizer.new, detect_bpm_empty_eval,
    Quantizer.targetBpm]
  simp [Quantizer.detect_onsets, to_mono_empty_stereo, List.chunksOf,
    chunksAux, Quantizer.detectOnsetsGo, Quantizer.find_best_start,
    Quantizer.apply_fades, SAMPLE_RATE, hcmp]

/-- Counterexample to C1 as stated: at the empty stereo input with fixed
target 3 000 000 BPM, 1 bar and 1 beat per bar, `quantize` succeeds with
`duration_frames = 0`, while rounding
`bars * beats_per_bar * 60 / target_bpm * SAMPLE_RATE = 0.96` gives 1. -/
theorem quantize_round_counterexample :
    isOkResult ((Quantizer.new 70 170).quantize silentStretchLib
        ⟨[], 48000, 2⟩ (BpmMode.Fixed 3000000) 1 1) = true
    ∧ ((Quantizer.new 70 170).quantize silentStretchLib ⟨[], 48000, 2⟩
        (BpmMode.Fixed 3000000) 1 1).map
          (fun b => b.loop_info.duration_samples) = Except.ok 0
    ∧ round ((1 : ℚ) * 1 * 60 / 3000000 * (SAMPLE_RATE : ℚ)) ≠ (0 : ℤ) := by
  refine ⟨?_, ?_, ?_⟩
  · rw [quantize_empty_fixed_eval]; rfl
  · rw [quantize_empty_fixed_eval]; rfl
  · rw [round_eq]
    norm_num [SAMPLE_RATE]

/-- Witness for the amended C1 at a concrete successful call. -/
theorem quantize_length_invariant_witness :
    0 < (Quantizer.new 70 170).min_bpm
    ∧ ((LoopBuffer.mk []
          ⟨3000000, 120, 1, true, 1, 1, 0, 48000⟩).samples.length
        = (LoopBuffer.mk []
            ⟨3000000, 120, 1, true, 1, 1, 0, 48000⟩).loop_info.duration_samples
          * CHANNELS
      ∧ (LoopBuffer.mk []
          ⟨3000000, 120, 1, true, 1, 1, 0,
            48000⟩).loop_info.duration_samples
        = f32ToUsize (60
            / (LoopBuffer.mk []
                ⟨3000000, 120, 1, true, 1, 1, 0, 48000⟩).loop_info.bpm
            * (((LoopBuffer.mk []
                  ⟨3000000, 120, 1, true, 1, 1, 0, 48000⟩).loop_info.bars
                * (LoopBuffer.mk []
                    ⟨3000000, 120, 1, true, 1, 1, 0,
                      48000⟩).loop_info.beats_per_bar : ℕ) : ℚ)
            * (SAMPLE_RATE : ℚ))) :=
  ⟨by norm_num [Quantizer.new],
   quantize_length_invariant silentStretchLib (Quantizer.new 70 170)
     ⟨[], 48000, 2⟩ (BpmMode.Fixed 3000000) 1 1
     (LoopBuffer.mk [] ⟨3000000, 120, 1, true, 1, 1, 0, 48000⟩)
     (by norm_num) (by norm_num) (by norm_num [Quantizer.new])
     (by norm_num [Quantizer.new])
     (by simp only [Quantizer.targetBpm]; norm_num)
     quantize_empty_fixed_eval⟩

/-- Counterexample to C8 as stated: for a well-formed buffer with 2 frames
(4 interleaved samples) and 1 bar, `samples_per_bar` returns 4 — the
interleaved sample count per bar — whereas `duration_frames / bars = 2`. -/
theorem samples_per_bar_counterexample :
    sampleLoopBuffer.samples.length
      = sampleLoopBuffer.loop_info.duration_samples * CHANNELS
    ∧ sampleLoopBuffer.samples_per_bar = 4
    ∧ sampleLoopBuffer.loop_info.duration_samples
        / sampleLoopBuffer.loop_info.bars = 2
    ∧ sampleLoopBuffer.samples_per_bar
        ≠ sampleLoopBuffer.loop_info.duration_samples
            / sampleLoopBuffer.loop_info.bars := by
  refine ⟨?_, ?_, ?_, ?_⟩ <;>
    simp [sampleLoopBuffer, LoopBuffer.samples_per_bar, CHANNELS]

/-- C8 (amended): `samples_per_bar` returns `samples.len() / bars`; under
the length invariant that is `duration_frames * channels / bars`, the
interleaved sample count of one bar, not the frame count of one bar. -/
theorem samples_per_bar_amended (b : LoopBuffer)
    (h : b.samples.length = b.loop_info.duration_samples * CHANNELS) :
    b.samples_per_bar
      = b.loop_info.duration_samples * CHANNELS / b.loop_info.bars := by
  rw [LoopBuffer.samples_per_bar, h]

/-- Witness for the amended C8 at a concrete buffer. -/
theorem samples_per_bar_amended_witness :
    sampleLoopBuffer.samples.length
      = sampleLoopBuffer.loop_info.duration_samples * CHANNELS
    ∧ sampleLoopBuffer.samples_per_bar
      = sampleLoopBuffer.loop_info.duration_samples * CHANNELS
          / sampleLoopBuffer.loop_info.bars :=
  ⟨by simp [sampleLoopBuffer, CHANNELS],
   samples_per_bar_amended sampleLoopBuffer
     (by simp [sampleLoopBuffer, CHANNELS])⟩

